import Mathlib

/-!
Shallow embedding of `scripts/qa_today_only_check.py`, the QA conformance
checker of the Classification-project repository.

The script inspects a project root (files, `.gitignore`, `requirements.txt`,
two notebooks, two CSV files) and emits a list of findings
`(label, status, detail)` with status `PASS`/`WARN`/`FAIL`, prints a report and
exits with status 1 iff any finding is `FAIL`.

Modelling conventions:
* The filesystem and the two optional external readers (`nbformat`, `pandas`)
  are an explicit environment `Env`; every check takes it as an argument.
  Paths are the relative paths the script joins onto the root, so a choice of
  `Env` is exactly a choice of root directory state.
* Python exceptions of the external readers are `Option`/`Except` values.
* `re.search` is embedded by a small regular-expression engine
  (Brzozowski derivatives).  Each catalog pattern is given as a pair of its
  Python source string (used in messages) and its abstract syntax.
  `re.MULTILINE` only changes the meaning of the anchors `^`/`$`, which occur
  in none of the catalog patterns, so the engine has no anchors.
* Python strings are Lean `String`s; all catalog strings are ASCII, so
  `Char.toLower` agrees with Python `str.lower` on every relevant character.
-/

/-! ### Python string primitives -/

/-- Python whitespace (the characters matched by `str.strip`, `str.split()`
and the regex class `\s`, restricted to ASCII). -/
def isPyWs (c : Char) : Bool :=
  c == ' ' || c == '\t' || c == '\n' || c == '\r' || c == '\x0b' || c == '\x0c'

/-- `str.lower`, on the ASCII fragment used by the script. -/
def pyLower (s : String) : String := String.mk (s.data.map Char.toLower)

/-- `str.strip()`: remove leading and trailing whitespace. -/
def pyStrip (s : String) : String :=
  String.mk (((s.data.dropWhile isPyWs).reverse.dropWhile isPyWs).reverse)

/-- Does the first list occur at the head of the second? -/
def headMatches : List Char → List Char → Bool
  | [], _ => true
  | _ :: _, [] => false
  | a :: as, b :: bs => a == b && headMatches as bs

/-- Python substring test `sub in s` on character lists. -/
def occursInChars (sub : List Char) : List Char → Bool
  | [] => sub.isEmpty
  | c :: rest => headMatches sub (c :: rest) || occursInChars sub rest

/-- Python substring test `sub in s`. -/
def occursIn (sub s : String) : Bool := occursInChars sub.data s.data

/-- The part of a string before the first occurrence of `sep`
(`s.split(sep)[0]` for a non-empty separator). -/
def beforeSep (sep : List Char) : List Char → List Char
  | [] => []
  | c :: rest => if headMatches sep (c :: rest) then [] else c :: beforeSep sep rest

/-- `str.splitlines`, splitting at `\r\n`, `\r` or `\n`; a trailing line
terminator produces no extra empty line, exactly as in Python. -/
def pySplitlinesAux : List Char → List Char → List String
  | [], acc => if acc.isEmpty then [] else [String.mk acc.reverse]
  | '\r' :: '\n' :: rest, acc => String.mk acc.reverse :: pySplitlinesAux rest []
  | '\r' :: rest, acc => String.mk acc.reverse :: pySplitlinesAux rest []
  | '\n' :: rest, acc => String.mk acc.reverse :: pySplitlinesAux rest []
  | c :: rest, acc => pySplitlinesAux rest (c :: acc)

def pySplitlines (s : String) : List String := pySplitlinesAux s.data []

/-- `str.split()` with no argument: split on whitespace runs, dropping
empty pieces. -/
def pySplitWsAux : List Char → List Char → List String
  | [], acc => if acc.isEmpty then [] else [String.mk acc.reverse]
  | c :: rest, acc =>
    if isPyWs c then
      if acc.isEmpty then pySplitWsAux rest []
      else String.mk acc.reverse :: pySplitWsAux rest []
    else pySplitWsAux rest (c :: acc)

def pySplitWs (s : String) : List String := pySplitWsAux s.data []

/-- `str.ljust(w)`: pad on the right with spaces up to width `w`. -/
def pyLjust (s : String) (w : Nat) : String :=
  s ++ String.mk (List.replicate (w - s.length) ' ')

/-- `repr` of a Python string restricted to the catalog's printable ASCII
strings: prefer single quotes, switch to double quotes when the string holds a
single quote but no double quote, and escape backslashes and the chosen
quote. -/
def pyReprStr (s : String) : String :=
  let hasSingle := s.data.contains '\''
  let hasDouble := s.data.contains '"'
  let q : Char := if hasSingle && !hasDouble then '"' else '\''
  let esc := s.data.foldr (fun c acc =>
    if c == '\\' then '\\' :: '\\' :: acc
    else if c == q then '\\' :: c :: acc
    else c :: acc) []
  String.mk (q :: esc ++ [q])

/-- `str(list_of_strings)`, as produced by the f-strings of the script. -/
def pyReprStrList (l : List String) : String :=
  "[" ++ String.intercalate ", " (l.map pyReprStr) ++ "]"

/-- Lexicographic order on strings by code point, as used by Python
`sorted` on strings. -/
def strLeChars : List Char → List Char → Bool
  | [], _ => true
  | _ :: _, [] => false
  | a :: as, b :: bs => if a == b then strLeChars as bs else decide (a < b)

def strLe (a b : String) : Bool := strLeChars a.data b.data

def insertSorted (x : String) : List String → List String
  | [] => [x]
  | y :: ys => if strLe x y then x :: y :: ys else y :: insertSorted x ys

/-- Python `sorted` on a list of strings (insertion sort; stable, but the
inputs it receives here are duplicate-free). -/
def sortStrs (l : List String) : List String := l.foldr insertSorted []

/-! ### Regular expressions (`re.search`)

Brzozowski-derivative engine for the fragment of Python regexes the script
uses: literals, the class `\s`, explicit character classes, `.`, `?` (encoded
through `alt`), `*` on `.` and `\s`, concatenation and alternation. -/

inductive Rgx where
  | emp : Rgx
  | eps : Rgx
  | chr : Char → Rgx
  | cls : List Char → Rgx
  | dot : Rgx
  | seq : Rgx → Rgx → Rgx
  | alt : Rgx → Rgx → Rgx
  | star : Rgx → Rgx
deriving DecidableEq

/-- Character comparison, optionally case-insensitive (`re.IGNORECASE`). -/
def charEqI (icase : Bool) (a b : Char) : Bool :=
  if icase then a.toLower == b.toLower else a == b

def Rgx.nullable : Rgx → Bool
  | .emp => false
  | .eps => true
  | .chr _ => false
  | .cls _ => false
  | .dot => false
  | .seq a b => a.nullable && b.nullable
  | .alt a b => a.nullable || b.nullable
  | .star _ => true

/-- Concatenation with the usual simplifications (`∅·r = r·∅ = ∅`,
`ε·r = r`, `r·ε = r`); language-equivalent to plain `seq` and keeps the
derivative terms small. -/
def Rgx.mkSeq : Rgx → Rgx → Rgx
  | .emp, _ => .emp
  | _, .emp => .emp
  | .eps, b => b
  | a, .eps => a
  | a, b => .seq a b

/-- Alternation with the simplifications `∅+r = r`, `r+∅ = r`. -/
def Rgx.mkAlt : Rgx → Rgx → Rgx
  | .emp, b => b
  | a, .emp => a
  | a, b => .alt a b

def Rgx.deriv (icase : Bool) (c : Char) : Rgx → Rgx
  | .emp => .emp
  | .eps => .emp
  | .chr d => if charEqI icase d c then .eps else .emp
  | .cls cs => if cs.any (fun d => charEqI icase d c) then .eps else .emp
  | .dot => if c == '\n' then .emp else .eps
  | .seq a b =>
    if a.nullable then .mkAlt (.mkSeq (a.deriv icase c) b) (b.deriv icase c)
    else .mkSeq (a.deriv icase c) b
  | .alt a b => .mkAlt (a.deriv icase c) (b.deriv icase c)
  | .star a => .mkSeq (a.deriv icase c) (.star a)

/-- Does `r` match some prefix of the character list?  (The empty language
stays empty under derivation, so the scan stops at `emp`.) -/
def Rgx.matchesPref (icase : Bool) : Rgx → List Char → Bool
  | r, [] => r.nullable
  | r, c :: cs =>
    r.nullable ||
      (match r.deriv icase c with
       | .emp => false
       | r' => r'.matchesPref icase cs)

/-- Does `r` match some substring starting at some position?  This is
`re.search(r, s) is not None`. -/
def Rgx.searchChars (icase : Bool) : Rgx → List Char → Bool
  | r, [] => r.nullable
  | r, c :: cs => r.matchesPref icase (c :: cs) || r.searchChars icase cs

def reSearch (icase : Bool) (r : Rgx) (s : String) : Bool :=
  r.searchChars icase s.data

/-- Literal string as a regex. -/
def rlit (s : String) : Rgx := s.data.foldr (fun c r => .seq (.chr c) r) .eps

/-- `x?`. -/
def ropt (r : Rgx) : Rgx := .alt r .eps

/-- `\s*`. -/
def rwsStar : Rgx := .star (.cls [' ', '\t', '\n', '\r', '\x0b', '\x0c'])

/-- `.*`. -/
def rdotStar : Rgx := .star .dot

/-! ### Data model -/

/-- One result tuple `(label, status, detail)` of a check. -/
structure Finding where
  label : String
  status : String
  detail : String
deriving DecidableEq

def PASS : String := "PASS"
def FAIL : String := "FAIL"
def WARN : String := "WARN"

/-- One notebook output record; only the key set of its `data` mapping is
ever consulted (`out.get("data") or {}`). -/
structure CellOutput where
  data : List String
deriving DecidableEq

/-- One notebook cell: `cell_type`, `source` (with `None` collapsed to `""`,
as `cell.get("source") or ""` does) and its `outputs`
(`cell.get("outputs") or []`). -/
structure Cell where
  cell_type : String
  source : String
  outputs : List CellOutput
deriving DecidableEq

structure Notebook where
  cells : List Cell
deriving DecidableEq

/-- The state of the project root plus the optional external capabilities.
`utf8`/`latin1` return `none` when `Path.read_text` would raise with that
encoding; `readNb`/`readCsv` return the parse result or the exception text;
`readCsv` delivers `(len(df), df.shape[1])` of `pd.read_csv(path, sep=";")`. -/
structure Env where
  pathExists : String → Bool
  utf8 : String → Option String
  latin1 : String → Option String
  nbformatAvailable : Bool
  readNb : String → Except String Notebook
  pandasAvailable : Bool
  readCsv : String → Except String (Nat × Nat)

/-! ### Pattern catalogs -/

def REQUIRED_FILES : List String :=
  [ "notebooks/01_problem_framing.ipynb",
    "notebooks/02_data_understanding.ipynb",
    "data/winequality-red.csv",
    "data/winequality-white.csv",
    "README.md",
    "requirements.txt",
    ".gitignore" ]

/-- `GITIGNORE_REQUIRED_PATTERNS`: the Python source string of each regex
(used in messages) paired with its abstract syntax. -/
def GITIGNORE_REQUIRED_PATTERNS : List (String × Rgx) :=
  [ ("\\.ipynb_checkpoints/", rlit ".ipynb_checkpoints/"),
    ("venv/", rlit "venv/"),
    ("__pycache__/", rlit "__pycache__/"),
    ("results/", rlit "results/"),
    ("notebooks/03_.*", .seq (rlit "notebooks/03_") rdotStar),
    ("notebooks/04_.*", .seq (rlit "notebooks/04_") rdotStar),
    ("notebooks/05_.*", .seq (rlit "notebooks/05_") rdotStar) ]

/-- `REQUIREMENTS_MIN`, in the order of the Python set literal; only
membership and the sorted order of subsets are ever used. -/
def REQUIREMENTS_MIN : List String :=
  ["pandas", "numpy", "scikit-learn", "matplotlib", "seaborn"]

def SKLEARN_CLASS_NAMES : List String :=
  [ "LogisticRegression", "RandomForest", "RandomForestClassifier",
    "GradientBoosting", "GradientBoostingClassifier", "SVC", "KNeighborsClassifier",
    "XGBClassifier", "DecisionTreeClassifier", "GaussianNB", "BernoulliNB",
    "MultinomialNB", "LinearSVC", "LinearDiscriminantAnalysis", "QuadraticDiscriminantAnalysis" ]

/-! ### File-based checks -/

/-- `load_text`: read UTF-8, fall back to latin-1, fall back to `""`. -/
def load_text (env : Env) (p : String) : String :=
  match env.utf8 p with
  | some s => s
  | none =>
    match env.latin1 p with
    | some s => s
    | none => ""

/-- `check_files_exist`: the loop appending one finding per required file. -/
def check_files_exist (env : Env) : List Finding :=
  REQUIRED_FILES.foldl (fun results rel =>
    let ok := env.pathExists rel
    results ++ [⟨"Exists: " ++ rel,
                 if ok then PASS else FAIL,
                 if ok then "" else "Missing " ++ rel⟩]) []

/-- `check_gitignore`. -/
def check_gitignore (env : Env) : List Finding :=
  if env.pathExists ".gitignore" = false then
    [⟨"gitignore present & includes rules", FAIL, ".gitignore not found"⟩]
  else
    let text := load_text env ".gitignore"
    let missing := (GITIGNORE_REQUIRED_PATTERNS.filter
      (fun pat => !reSearch false pat.2 text)).map (·.1)
    if missing.isEmpty then
      [⟨"gitignore includes today-only rules", PASS, ""⟩]
    else
      [⟨"gitignore includes today-only rules", WARN,
        "Add patterns: " ++ String.intercalate ", " missing⟩]

/-- The declared-dependency token of a manifest line:
`line.strip().split("==")[0].lower()`. -/
def depToken (line : String) : String :=
  pyLower (String.mk (beforeSep ['=', '='] (pyStrip line).data))

/-- Is the manifest line kept by the comprehension
(`line.strip() and not line.strip().startswith("#")`)? -/
def keptLine (line : String) : Bool :=
  !(pyStrip line).isEmpty && !headMatches ['#'] (pyStrip line).data

/-- Membership in the set `found` of `check_requirements`. -/
def foundDep (text tok : String) : Bool :=
  (pySplitlines text).any (fun line => keptLine line && depToken line == tok)

/-- `check_requirements`. -/
def check_requirements (env : Env) : List Finding :=
  if env.pathExists "requirements.txt" = false then
    [⟨"requirements.txt present", FAIL, "requirements.txt not found"⟩]
  else
    let text := load_text env "requirements.txt"
    let missing := (REQUIREMENTS_MIN.map pyLower).filter
      (fun pkg => !foundDep text pkg)
    if missing.isEmpty then
      [⟨"requirements includes minimal deps", PASS, ""⟩]
    else
      [⟨"requirements includes minimal deps", WARN,
        "Missing: " ++ String.intercalate ", " (sortStrs missing)⟩]

/-! ### Notebook access -/

/-- `load_notebook`: `(nb, "")` on success, `(None, err)` on failure or when
`nbformat` is unavailable. -/
def load_notebook (env : Env) (p : String) : Option Notebook × String :=
  if env.nbformatAvailable = false then
    (none, "nbformat not installed (pip install nbformat)")
  else
    match env.readNb p with
    | .ok nb => (some nb, "")
    | .error e => (none, e)

def nb_markdown_cells (nb : Notebook) : List Cell :=
  nb.cells.filter (fun c => c.cell_type == "markdown")

def nb_code_cells (nb : Notebook) : List Cell :=
  nb.cells.filter (fun c => c.cell_type == "code")

/-- `has_outputs`: some code cell has a non-empty output list. -/
def has_outputs (nb : Notebook) : Bool :=
  (nb_code_cells nb).any (fun c => 0 < c.outputs.length)

/-- `count_image_outputs`, as the Python nested counting loop. -/
def count_image_outputs (nb : Notebook) : Nat :=
  (nb_code_cells nb).foldl (fun cnt c =>
    c.outputs.foldl (fun cnt out =>
      if out.data.contains "image/png" || out.data.contains "image/jpeg"
          || out.data.contains "image/svg+xml" then cnt + 1 else cnt) cnt) 0

/-- Is the pattern in the `found` set of `find_strings_in_nb nb pats searchIn`?
(`find_strings_in_nb` always searches with `re.IGNORECASE`.) -/
def foundInNb (nb : Notebook) (searchIn : List String) (pat : Rgx) : Bool :=
  nb.cells.any (fun c => searchIn.contains c.cell_type && reSearch true pat c.source)

/-- The patterns of the catalog missing from the notebook, in catalog order:
`[m for m in pats if m not in find_strings_in_nb(nb, pats, search_in)]`. -/
def missingInNb (nb : Notebook) (pats : List (String × Rgx))
    (searchIn : List String) : List String :=
  (pats.filter (fun pat => !foundInNb nb searchIn pat.2)).map (·.1)

/-! ### Notebook 01 check -/

/-- `must_text` of `check_nb01`: pattern source strings with their syntax. -/
def NB01_MUST_TEXT : List (String × Rgx) :=
  [ ("Wine Classification", rlit "Wine Classification"),
    ("Problem Framing", rlit "Problem Framing"),
    ("UCI.*Wine Quality|Wine Quality.*UCI",
      .alt (.seq (rlit "UCI") (.seq rdotStar (rlit "Wine Quality")))
           (.seq (rlit "Wine Quality") (.seq rdotStar (rlit "UCI")))),
    ("red\\s*vs\\.?\\s*white|red.*white",
      .alt (.seq (rlit "red") (.seq rwsStar (.seq (rlit "vs")
             (.seq (ropt (.chr '.')) (.seq rwsStar (rlit "white"))))))
           (.seq (rlit "red") (.seq rdotStar (rlit "white")))),
    ("stakeholder|impact|ethic|sustainab",
      .alt (rlit "stakeholder")
           (.alt (rlit "impact") (.alt (rlit "ethic") (rlit "sustainab")))) ]

/-- `repro_hints` of `check_nb01`. -/
def NB01_REPRO_HINTS : List (String × Rgx) :=
  [ ("__version__", rlit "__version__"),
    ("random_state\\s*=\\s*42",
      .seq (rlit "random_state") (.seq rwsStar (.seq (.chr '=')
        (.seq rwsStar (rlit "42"))))) ]

/-- `check_nb01`. -/
def check_nb01 (env : Env) : List Finding :=
  match load_notebook env "notebooks/01_problem_framing.ipynb" with
  | (none, err) => [⟨"Notebook 01 loads", FAIL, "Cannot open: " ++ err⟩]
  | (some nb, _) =>
    let missing := missingInNb nb NB01_MUST_TEXT ["markdown", "code"]
    let r2 : Finding :=
      if missing.isEmpty then ⟨"NB01: Problem framing content present", PASS, ""⟩
      else ⟨"NB01: Problem framing content present", WARN,
            "Consider adding: " ++ pyReprStrList missing⟩
    let r3 : Finding :=
      if NB01_REPRO_HINTS.any (fun pat => foundInNb nb ["code"] pat.2) then
        ⟨"NB01: Repro cell (versions/seed)", PASS, ""⟩
      else
        ⟨"NB01: Repro cell (versions/seed)", WARN,
         "Add a cell that prints pandas/sklearn versions and sets random_state=42 where relevant."⟩
    let r4 : Finding :=
      if has_outputs nb then ⟨"NB01: Saved with outputs", PASS, ""⟩
      else ⟨"NB01: Saved with outputs", WARN, "Execute and save so GitHub renders outputs."⟩
    [⟨"Notebook 01 loads", PASS, ""⟩, r2, r3, r4]

/-! ### Notebook 02 check -/

/-- `must_code` of `check_nb02`.  The second raw string of the Python source
keeps a backslash before each inner double quote, so its character class reads
as the escaped double quote together with the single quote, and the escaped
semicolon is the literal semicolon. -/
def NB02_MUST_CODE : List (String × Rgx) :=
  [ ("read_csv", rlit "read_csv"),
    ("sep\\s*=\\s*[\\\"']\\;[\\\"']",
      .seq (rlit "sep") (.seq rwsStar (.seq (.chr '=') (.seq rwsStar
        (.seq (.cls ['"', '\'']) (.seq (.chr ';') (.cls ['"', '\'']))))))),
    ("(?:\\['type'\\]|type)\\s*=",
      .seq (.alt (rlit "['type']") (rlit "type")) (.seq rwsStar (.chr '='))),
    ("concat\\(", rlit "concat(") ]

/-- `class_vis_hints` of `check_nb02`. -/
def NB02_VIS_HINTS : List (String × Rgx) :=
  [ ("value_counts\\(", rlit "value_counts("),
    ("countplot", rlit "countplot"),
    ("barh?\\(", .seq (rlit "bar") (.seq (ropt (.chr 'h')) (.chr '('))),
    ("plot\\(", rlit "plot("),
    ("hist\\(", rlit "hist(") ]

/-- The regex `\.fit\s*\(` of the anti-scope-creep check. -/
def FIT_CALL_RGX : Rgx :=
  .seq (.chr '.') (.seq (rlit "fit") (.seq rwsStar (.chr '(')))

def INTERP_KEYWORDS : List String := ["interpretation", "insight", "insights"]

/-- The interpretation-note counter of `check_nb02`: markdown cells holding a
keyword with at least 20 whitespace-separated words, then code cells holding a
keyword at any length, one shared counter. -/
def interp_count (nb : Notebook) : Nat :=
  (nb_code_cells nb).foldl (fun n c =>
    if INTERP_KEYWORDS.any (fun w => occursIn w (pyLower c.source)) then n + 1 else n)
    ((nb_markdown_cells nb).foldl (fun n c =>
      if INTERP_KEYWORDS.any (fun w => occursIn w (pyLower c.source)) then
        if 20 ≤ (pySplitWs (pyLower c.source)).length then n + 1 else n
      else n) 0)

/-- `"\n".join(cell.source for cell in code cells)`. -/
def nb_code_text (nb : Notebook) : String :=
  String.intercalate "\n" ((nb_code_cells nb).map (·.source))

/-- The `trained` flag of the anti-scope-creep check. -/
def nb02_trained (nb : Notebook) : Bool :=
  reSearch false FIT_CALL_RGX (nb_code_text nb)
    || SKLEARN_CLASS_NAMES.any (fun name => occursIn name (nb_code_text nb))

/-- `check_nb02`. -/
def check_nb02 (env : Env) : List Finding :=
  match load_notebook env "notebooks/02_data_understanding.ipynb" with
  | (none, err) => [⟨"Notebook 02 loads", FAIL, "Cannot open: " ++ err⟩]
  | (some nb, _) =>
    let missing := missingInNb nb NB02_MUST_CODE ["code"]
    let r2 : Finding :=
      if missing.isEmpty then ⟨"NB02: Data load + label (0/1) + concat", PASS, ""⟩
      else ⟨"NB02: Data load + label (0/1) + concat", WARN,
            "Missing patterns: " ++ pyReprStrList missing⟩
    let foundVis := NB02_VIS_HINTS.any (fun pat => foundInNb nb ["code"] pat.2)
    let imgCount := count_image_outputs nb
    let r3 : Finding :=
      if !foundVis || imgCount < 1 then
        ⟨"NB02: Class balance figure + output", WARN,
         "Add a bar/plot of class counts and ensure outputs are saved."⟩
      else
        ⟨"NB02: Class balance figure + output", PASS,
         "Detected " ++ toString imgCount ++ " image outputs."⟩
    let r4 : Finding :=
      if 2 ≤ imgCount then
        ⟨"NB02: >=2 feature visuals present", PASS,
         "Detected " ++ toString imgCount ++ " image outputs."⟩
      else
        ⟨"NB02: >=2 feature visuals present", WARN,
         "Add at least two feature plots (e.g., boxplots/hist by class)."⟩
    let r5 : Finding :=
      if 2 ≤ interp_count nb then
        ⟨"NB02: Figure interpretations present", PASS,
         toString (interp_count nb) ++ " interpretation notes found."⟩
      else
        ⟨"NB02: Figure interpretations present", WARN,
         "Add 2–3 line interpretations under figures (use the word 'Interpretation' to pass this check)."⟩
    let r6 : Finding :=
      if nb02_trained nb then
        ⟨"NB02: No model training appears", FAIL,
         "Detected model training patterns ('.fit(' or classifier names). Move training to Notebook 03."⟩
      else ⟨"NB02: No model training appears", PASS, ""⟩
    let r7 : Finding :=
      if has_outputs nb then ⟨"NB02: Saved with outputs", PASS, ""⟩
      else ⟨"NB02: Saved with outputs", FAIL,
            "Run all cells and save notebook with outputs so GitHub renders figures."⟩
    [⟨"Notebook 02 loads", PASS, ""⟩, r2, r3, r4, r5, r6, r7]

/-! ### Tabular shapes -/

/-- Python `str((rows, cols))` for the shape tuple in the detail message. -/
def shapeStr (s : Nat × Nat) : String :=
  "(" ++ toString s.1 ++ ", " ++ toString s.2 ++ ")"

/-- `check_data_shapes`: `pandas` unavailable gives a single WARN; a read
error of either file gives a single FAIL with the exception text (the red
file is read first); otherwise PASS or WARN by the tolerance bands, with both
shapes echoed either way. -/
def check_data_shapes (env : Env) : List Finding :=
  if env.pandasAvailable = false then
    [⟨"Data shapes (red/white)", WARN, "pandas not available; cannot verify shapes"⟩]
  else
    match env.readCsv "data/winequality-red.csv" with
    | .error e => [⟨"Data shapes (approx UCI)", FAIL, "Error reading CSVs: " ++ e⟩]
    | .ok red =>
      match env.readCsv "data/winequality-white.csv" with
      | .error e => [⟨"Data shapes (approx UCI)", FAIL, "Error reading CSVs: " ++ e⟩]
      | .ok white =>
        let okRed := 1500 ≤ red.1 ∧ red.1 ≤ 1700 ∧ 11 ≤ red.2 ∧ red.2 ≤ 13
        let okWhite := 4700 ≤ white.1 ∧ white.1 ≤ 5100 ∧ 11 ≤ white.2 ∧ white.2 ≤ 13
        [⟨"Data shapes (approx UCI)",
          if okRed ∧ okWhite then PASS else WARN,
          "red=" ++ shapeStr red ++ ", white=" ++ shapeStr white⟩]

/-! ### Aggregation and exit -/

/-- `max` of the lengths (`max(...)` raises on an empty sequence, which
`summarize` propagates as `none`; on non-empty input this fold is that
maximum). -/
def listMax (l : List Nat) : Nat := l.foldl max 0

/-- One body line of the report. -/
def reportLine (maxLabel maxStatus : Nat) (r : Finding) : String :=
  pyLjust r.label maxLabel ++ "  " ++ pyLjust r.status maxStatus ++ "  " ++ r.detail

/-- `summarize`: `none` models the `ValueError` Python's `max` raises on an
empty result list; otherwise the loop accumulates the body lines and the FAIL
and WARN counters, and the report is header, dash rule, body and summary
footer.  `now` is the formatted `datetime.now()` timestamp. -/
def summarize (now : String) (results : List Finding) : Option (String × Nat) :=
  match results with
  | [] => none
  | _ :: _ =>
    let maxLabel := listMax (results.map (fun r => r.label.length))
    let maxStatus := listMax (results.map (fun r => r.status.length))
    let acc := results.foldl (fun (st : List String × Nat × Nat) r =>
      let counts :=
        if r.status == FAIL then (st.2.1 + 1, st.2.2)
        else if r.status == WARN then (st.2.1, st.2.2 + 1)
        else st.2
      (st.1 ++ [reportLine maxLabel maxStatus r], counts)) ([], 0, 0)
    let header := "QA Report — " ++ now
    let sepRule := String.mk (List.replicate header.length '-')
    let body := String.intercalate "\n" acc.1
    let footer := "\nSummary: " ++ toString acc.2.1 ++ " FAIL, "
      ++ toString acc.2.2 ++ " WARN\n"
    some (header ++ "\n" ++ sepRule ++ "\n" ++ body ++ footer, acc.2.1)

/-- The concatenated findings of `main`, in invocation order. -/
def runChecks (env : Env) : List Finding :=
  check_files_exist env ++ check_gitignore env ++ check_requirements env
    ++ check_nb01 env ++ check_nb02 env ++ check_data_shapes env

/-- `sys.exit(1 if failures > 0 else 0)` on the failure count. -/
def exitFor (failures : Nat) : Nat := if 0 < failures then 1 else 0

/-- The process exit status of `main`; `none` would mean `summarize` raised,
which the theorems below exclude. -/
def mainExit (now : String) (env : Env) : Option Nat :=
  (summarize now (runChecks env)).map (fun p => exitFor p.2)

/-! ### Helper lemmas -/

theorem foldl_append_eq_map {α β : Type} (f : α → β) (l : List α) (init : List β) :
    l.foldl (fun acc x => acc ++ [f x]) init = init ++ l.map f := by
  induction l generalizing init with
  | nil => simp
  | cons a as ih => simp [List.foldl_cons, ih]

theorem filter_eq_nil_of_forall {α : Type} (l : List α) (p : α → Bool)
    (h : ∀ g ∈ l, p g = false) : l.filter p = [] := by
  induction l with
  | nil => rfl
  | cons a as ih =>
    rw [List.filter_cons, if_neg (by simp [h a (List.mem_cons_self a as)])]
    exact ih (fun g hg => h g (List.mem_cons_of_mem a hg))

theorem filter_singleton_of_unique {α : Type} [DecidableEq α] (l : List α)
    (p : α → Bool) (f : α) (hf : f ∈ l) (hl : l.Nodup)
    (h : ∀ g ∈ l, (p g = true ↔ g = f)) : l.filter p = [f] := by
  induction l with
  | nil => simp at hf
  | cons a as ih =>
    by_cases haf : a = f
    · subst haf
      have hpa : p a = true := (h a (List.mem_cons_self a as)).mpr rfl
      have hrest : as.filter p = [] := by
        refine filter_eq_nil_of_forall as p (fun g hg => ?_)
        have hga : g ≠ a := fun hx => (List.nodup_cons.mp hl).1 (hx ▸ hg)
        rcases hpg : p g with _ | _
        · rfl
        · exact absurd ((h g (List.mem_cons_of_mem a hg)).mp hpg) hga
      rw [List.filter_cons, if_pos (by simp [hpa]), hrest]
    · have hfin : f ∈ as := by
        rcases List.mem_cons.mp hf with h1 | h1
        · exact absurd h1.symm haf
        · exact h1
      have hpa : p a = false := by
        rcases hpg : p a with _ | _
        · rfl
        · exact absurd ((h a (List.mem_cons_self a as)).mp hpg) haf
      rw [List.filter_cons, if_neg (by simp [hpa])]
      exact ih hfin (List.nodup_cons.mp hl).2
        (fun g hg => h g (List.mem_cons_of_mem a hg))

theorem filter_map_comm {α β : Type} (f : α → β) (p : β → Bool) (l : List α) :
    (l.map f).filter p = (l.filter (fun x => p (f x))).map f := by
  induction l with
  | nil => rfl
  | cons a as ih =>
    by_cases hpa : p (f a) = true
    · simp [List.filter_cons, hpa, ih]
    · simp only [Bool.not_eq_true] at hpa
      simp [List.filter_cons, hpa, ih]

/-! ### Claim C3 -/

/-- The finding `check_files_exist` emits for one required path. -/
def existFinding (env : Env) (rel : String) : Finding :=
  ⟨"Exists: " ++ rel,
   if env.pathExists rel then PASS else FAIL,
   if env.pathExists rel then "" else "Missing " ++ rel⟩

/-- Claim C3: for every root, Artifact Existence emits exactly one finding per
required catalog path, in catalog order — PASS when the path exists, otherwise
FAIL whose detail names the missing path; and when exactly one required
artifact is missing, the FAIL findings are exactly the one naming it, every
other artifact contributing its PASS finding. -/
theorem claim_C3_artifact_existence (env : Env) :
    check_files_exist env = REQUIRED_FILES.map (existFinding env)
    ∧ ∀ f ∈ REQUIRED_FILES,
        (∀ g ∈ REQUIRED_FILES, (env.pathExists g = false ↔ g = f)) →
        (check_files_exist env).filter (fun r => r.status == FAIL)
            = [⟨"Exists: " ++ f, FAIL, "Missing " ++ f⟩]
          ∧ (check_files_exist env).filter (fun r => r.status == PASS)
            = (REQUIRED_FILES.filter (fun g => g ≠ f)).map
                (fun g => ⟨"Exists: " ++ g, PASS, ""⟩) := by
  have hPF : (PASS == FAIL) = false := by decide
  have hPP : (PASS == PASS) = true := by decide
  have hFF : (FAIL == FAIL) = true := by decide
  have hFP : (FAIL == PASS) = false := by decide
  have hmap : check_files_exist env = REQUIRED_FILES.map (existFinding env) :=
    foldl_append_eq_map (existFinding env) REQUIRED_FILES []
  refine ⟨hmap, fun f hf hone => ?_⟩
  have hnodup : REQUIRED_FILES.Nodup := by decide
  have hstat : ∀ g, (existFinding env g).status
      = (if env.pathExists g then PASS else FAIL) := fun g => rfl
  constructor
  · rw [hmap, filter_map_comm]
    have hone' : REQUIRED_FILES.filter
        (fun x => (existFinding env x).status == FAIL) = [f] := by
      refine filter_singleton_of_unique _ _ f hf hnodup (fun g hg => ?_)
      rw [hstat]
      rcases hex : env.pathExists g with _ | _
      · simpa [hex, hFF] using (hone g hg)
      · simp only [if_true, hPF]
        constructor
        · intro hcon; cases hcon
        · intro hgf
          have := (hone g hg).mpr hgf
          rw [this] at hex; cases hex
    rw [hone']
    have hfex : env.pathExists f = false := (hone f hf).mpr rfl
    simp [existFinding, hfex]
  · rw [hmap, filter_map_comm]
    have hfilt : REQUIRED_FILES.filter
          (fun x => (existFinding env x).status == PASS)
        = REQUIRED_FILES.filter (fun g => g ≠ f) := by
      refine List.filter_congr (fun g hg => ?_)
      rw [hstat]
      rcases hex : env.pathExists g with _ | _
      · have hgf : g = f := (hone g hg).mp hex
        simp [hgf, hFP]
      · have hgf : ¬ (g = f) := fun hx => by
          have := (hone g hg).mpr hx
          rw [this] at hex; cases hex
        simp [hgf, hPP]
    rw [hfilt]
    refine List.map_congr_left (fun g hg => ?_)
    have hgR : g ∈ REQUIRED_FILES := (List.mem_filter.mp hg).1
    have hgf : ¬ (g = f) := by simpa using (List.mem_filter.mp hg).2
    have hex : env.pathExists g = true := by
      rcases hx : env.pathExists g with _ | _
      · exact absurd ((hone g hgR).mp hx) hgf
      · rfl
    simp [existFinding, hex]

/-! ### Claim C10 -/

/-- Claim C10: the text-loading helper is total — the UTF-8 result when it
decodes, the latin-1 result when only UTF-8 fails, and `""` when both fail;
consequently an existing but undecodable ignore file or manifest is processed
as empty text and yields a WARN listing every catalog pattern (resp. every
minimal dependency, case-folded and sorted), never a crash and never a FAIL. -/
theorem claim_C10_load_text_total (env : Env) (p : String) :
    (∀ s, env.utf8 p = some s → load_text env p = s)
    ∧ (env.utf8 p = none → ∀ s, env.latin1 p = some s → load_text env p = s)
    ∧ (env.utf8 p = none → env.latin1 p = none → load_text env p = "")
    ∧ (env.pathExists ".gitignore" = true → env.utf8 ".gitignore" = none →
        env.latin1 ".gitignore" = none →
        check_gitignore env = [⟨"gitignore includes today-only rules", WARN,
          "Add patterns: \\.ipynb_checkpoints/, venv/, __pycache__/, results/, notebooks/03_.*, notebooks/04_.*, notebooks/05_.*"⟩])
    ∧ (env.pathExists "requirements.txt" = true → env.utf8 "requirements.txt" = none →
        env.latin1 "requirements.txt" = none →
        check_requirements env = [⟨"requirements includes minimal deps", WARN,
          "Missing: matplotlib, numpy, pandas, scikit-learn, seaborn"⟩]) := by
  refine ⟨fun s h => ?_, fun h1 s h2 => ?_, fun h1 h2 => ?_,
    fun hex h1 h2 => ?_, fun hex h1 h2 => ?_⟩
  · simp [load_text, h]
  · simp [load_text, h1, h2]
  · simp [load_text, h1, h2]
  · simp only [check_gitignore, hex, load_text, h1, h2]
    decide
  · simp only [check_requirements, hex, load_text, h1, h2]
    decide

/-- Witness for C10: a concrete root whose files all exist but none decodes. -/
def envUndecodable : Env :=
  { pathExists := fun _ => true
    utf8 := fun _ => none
    latin1 := fun _ => none
    nbformatAvailable := false
    readNb := fun _ => .error "unused"
    pandasAvailable := false
    readCsv := fun _ => .error "unused" }

theorem claim_C10_witness :
    load_text envUndecodable ".gitignore" = ""
    ∧ check_gitignore envUndecodable = [⟨"gitignore includes today-only rules", WARN,
        "Add patterns: \\.ipynb_checkpoints/, venv/, __pycache__/, results/, notebooks/03_.*, notebooks/04_.*, notebooks/05_.*"⟩]
    ∧ check_requirements envUndecodable = [⟨"requirements includes minimal deps", WARN,
        "Missing: matplotlib, numpy, pandas, scikit-learn, seaborn"⟩] :=
  ⟨(claim_C10_load_text_total envUndecodable ".gitignore").2.2.1 rfl rfl,
   (claim_C10_load_text_total envUndecodable ".gitignore").2.2.2.1 rfl rfl rfl,
   (claim_C10_load_text_total envUndecodable ".gitignore").2.2.2.2 rfl rfl rfl⟩

/-! ### Claim C7 -/

/-- The list of pattern source strings not matched against the ignore file's
text, in catalog order. -/
def gitignoreMissing (text : String) : List String :=
  (GITIGNORE_REQUIRED_PATTERNS.filter (fun pat => !reSearch false pat.2 text)).map (·.1)

theorem check_gitignore_present (env : Env)
    (hex : env.pathExists ".gitignore" = true) :
    check_gitignore env =
      if (gitignoreMissing (load_text env ".gitignore")).isEmpty then
        [⟨"gitignore includes today-only rules", PASS, ""⟩]
      else
        [⟨"gitignore includes today-only rules", WARN,
          "Add patterns: " ++ String.intercalate ", "
            (gitignoreMissing (load_text env ".gitignore"))⟩] := by
  unfold check_gitignore gitignoreMissing
  rw [if_neg (by simp [hex])]

/-- A fully compliant ignore file: one line per required pattern's target. -/
def gitignoreFullText : String :=
  ".ipynb_checkpoints/\nvenv/\n__pycache__/\nresults/\nnotebooks/03_.*\nnotebooks/04_.*\nnotebooks/05_.*\n"

/-- The compliant ignore file with its `i`-th line removed. -/
def gitignoreDropLine (i : Nat) : String :=
  String.intercalate "\n" ((pySplitlines gitignoreFullText).eraseIdx i)

/-- A root whose ignore file exists and decodes to the given text; nothing
else about the root matters to `check_gitignore`. -/
def envWithGitignore (text : String) : Env :=
  { pathExists := fun _ => true
    utf8 := fun _ => some text
    latin1 := fun _ => none
    nbformatAvailable := false
    readNb := fun _ => .error "unused"
    pandasAvailable := false
    readCsv := fun _ => .error "unused" }

/-- Claim C7: Ignore-Rule Coverage emits exactly one finding — FAIL when the
ignore file is absent, otherwise WARN naming exactly the catalog patterns not
matched (regex search over the full text) when any is missing, and PASS
otherwise; concretely, the compliant file yields the single PASS and removing
any one line flips the verdict to a WARN naming that line's pattern. -/
theorem claim_C7_gitignore_coverage (env : Env) :
    (env.pathExists ".gitignore" = false →
       check_gitignore env
         = [⟨"gitignore present & includes rules", FAIL, ".gitignore not found"⟩])
    ∧ (env.pathExists ".gitignore" = true →
        (check_gitignore env).length = 1
        ∧ (gitignoreMissing (load_text env ".gitignore") = [] →
            check_gitignore env = [⟨"gitignore includes today-only rules", PASS, ""⟩])
        ∧ (gitignoreMissing (load_text env ".gitignore") ≠ [] →
            check_gitignore env = [⟨"gitignore includes today-only rules", WARN,
              "Add patterns: " ++ String.intercalate ", "
                (gitignoreMissing (load_text env ".gitignore"))⟩]))
    ∧ check_gitignore (envWithGitignore gitignoreFullText)
        = [⟨"gitignore includes today-only rules", PASS, ""⟩]
    ∧ (∀ i, i < 7 →
        check_gitignore (envWithGitignore (gitignoreDropLine i))
          = [⟨"gitignore includes today-only rules", WARN,
              "Add patterns: " ++ (GITIGNORE_REQUIRED_PATTERNS.map (·.1)).getD i ""⟩]) := by
  refine ⟨fun hex => ?_, fun hex => ⟨?_, fun hmiss => ?_, fun hne => ?_⟩, ?_, ?_⟩
  · simp [check_gitignore, hex]
  · rw [check_gitignore_present env hex]
    split <;> rfl
  · rw [check_gitignore_present env hex, hmiss]
    rfl
  · rw [check_gitignore_present env hex,
      if_neg (by simpa [List.isEmpty_iff] using hne)]
  · decide
  · decide

/-! ### Claim C2 -/

/-- The sorted missing-dependency list of `check_requirements` for a given
manifest text. -/
def reqMissing (text : String) : List String :=
  (REQUIREMENTS_MIN.map pyLower).filter (fun pkg => !foundDep text pkg)

theorem check_requirements_present (env : Env)
    (hex : env.pathExists "requirements.txt" = true) :
    check_requirements env =
      if (reqMissing (load_text env "requirements.txt")).isEmpty then
        [⟨"requirements includes minimal deps", PASS, ""⟩]
      else
        [⟨"requirements includes minimal deps", WARN,
          "Missing: " ++ String.intercalate ", "
            (sortStrs (reqMissing (load_text env "requirements.txt")))⟩] := by
  unfold check_requirements reqMissing
  rw [if_neg (by simp [hex])]

/-- A root whose manifest exists and decodes to the given text. -/
def envWithReq (text : String) : Env :=
  { pathExists := fun _ => true
    utf8 := fun _ => some text
    latin1 := fun _ => none
    nbformatAvailable := false
    readNb := fun _ => .error "unused"
    pandasAvailable := false
    readCsv := fun _ => .error "unused" }

/-- The manifest holding exactly the minimal dependencies whose bit is set in
the mask, one per line, in catalog order. -/
def reqManifestFor (m : Nat) : String :=
  String.intercalate "\n" ((List.range 5).filterMap (fun i =>
    if m.testBit i then some (REQUIREMENTS_MIN.getD i "") else none))

/-- The dependencies whose bit is clear in the mask, case-folded, in catalog
order. -/
def reqOmitted (m : Nat) : List String :=
  (List.range 5).filterMap (fun i =>
    if m.testBit i then none else some (pyLower (REQUIREMENTS_MIN.getD i "")))

/-- A mixed-case manifest with comments, blank lines and `==` version pins
that still declares all five minimal dependencies. -/
def reqManifestMixed : String :=
  "# analysis stack\nPandas==2.0.1\nNUMPY\n\nScikit-Learn==1.4.2\n  matplotlib==3.8\nSEABORN==0.13\n"

/-- Claim C2: Dependency Coverage parses each kept manifest line into the
case-folded token before the `==` version pin; an absent manifest is a single
FAIL, a manifest covering all five minimal dependencies (any letter case,
pinned or not) is a single PASS, and omitting any subset is a single WARN
naming exactly that subset (case-folded, sorted); a declared name is found
exactly when some non-blank non-comment line yields that token. -/
theorem claim_C2_requirements_coverage (env : Env) :
    (env.pathExists "requirements.txt" = false →
       check_requirements env
         = [⟨"requirements.txt present", FAIL, "requirements.txt not found"⟩])
    ∧ (env.pathExists "requirements.txt" = true →
        (check_requirements env).length = 1
        ∧ (reqMissing (load_text env "requirements.txt") = [] →
            check_requirements env = [⟨"requirements includes minimal deps", PASS, ""⟩])
        ∧ (reqMissing (load_text env "requirements.txt") ≠ [] →
            check_requirements env = [⟨"requirements includes minimal deps", WARN,
              "Missing: " ++ String.intercalate ", "
                (sortStrs (reqMissing (load_text env "requirements.txt")))⟩]))
    ∧ (∀ text tok, foundDep text tok = true ↔
        ∃ line ∈ pySplitlines text, keptLine line = true ∧ depToken line = tok)
    ∧ check_requirements (envWithReq reqManifestMixed)
        = [⟨"requirements includes minimal deps", PASS, ""⟩]
    ∧ (∀ m, m < 32 →
        check_requirements (envWithReq (reqManifestFor m))
          = if (reqOmitted m).isEmpty then
              [⟨"requirements includes minimal deps", PASS, ""⟩]
            else
              [⟨"requirements includes minimal deps", WARN,
                "Missing: " ++ String.intercalate ", " (sortStrs (reqOmitted m))⟩]) := by
  refine ⟨fun hex => ?_, fun hex => ⟨?_, fun hmiss => ?_, fun hne => ?_⟩,
    fun text tok => ?_, ?_, ?_⟩
  · simp [check_requirements, hex]
  · rw [check_requirements_present env hex]
    split <;> rfl
  · rw [check_requirements_present env hex, hmiss]
    rfl
  · rw [check_requirements_present env hex,
      if_neg (by simpa [List.isEmpty_iff] using hne)]
  · constructor
    · intro h
      rcases List.any_eq_true.mp h with ⟨line, hline, hprop⟩
      simp only [Bool.and_eq_true, beq_iff_eq] at hprop
      exact ⟨line, hline, hprop.1, hprop.2⟩
    · intro ⟨line, hline, hkept, htok⟩
      exact List.any_eq_true.mpr ⟨line, hline, by simp [hkept, htok]⟩
  · decide
  · decide

/-! ### Claim C8 -/

/-- Claim C8: Tabular Shape emits a single WARN when the tabular reader is
unavailable; with the reader present, a read error of either file (red read
first) gives a single FAIL embedding the error text, and otherwise a single
finding whose status is PASS exactly when the red shape lies in
1500–1700 × 11–13 and the white shape in 4700–5100 × 11–13, WARN otherwise,
with both observed shapes echoed in the detail either way. -/
theorem claim_C8_data_shapes (env : Env) :
    (env.pandasAvailable = false →
       check_data_shapes env
         = [⟨"Data shapes (red/white)", WARN, "pandas not available; cannot verify shapes"⟩])
    ∧ (env.pandasAvailable = true →
        (∀ e, env.readCsv "data/winequality-red.csv" = .error e →
           check_data_shapes env = [⟨"Data shapes (approx UCI)", FAIL, "Error reading CSVs: " ++ e⟩])
        ∧ (∀ red e, env.readCsv "data/winequality-red.csv" = .ok red →
             env.readCsv "data/winequality-white.csv" = .error e →
             check_data_shapes env = [⟨"Data shapes (approx UCI)", FAIL, "Error reading CSVs: " ++ e⟩])
        ∧ (∀ red white, env.readCsv "data/winequality-red.csv" = .ok red →
             env.readCsv "data/winequality-white.csv" = .ok white →
             check_data_shapes env = [⟨"Data shapes (approx UCI)",
               if (1500 ≤ red.1 ∧ red.1 ≤ 1700 ∧ 11 ≤ red.2 ∧ red.2 ≤ 13)
                   ∧ (4700 ≤ white.1 ∧ white.1 ≤ 5100 ∧ 11 ≤ white.2 ∧ white.2 ≤ 13) then PASS else WARN,
               "red=" ++ shapeStr red ++ ", white=" ++ shapeStr white⟩])) := by
  refine ⟨fun hpd => ?_, fun hpd => ⟨fun e he => ?_, fun red e hr hw => ?_,
    fun red white hr hw => ?_⟩⟩
  · simp [check_data_shapes, hpd]
  · rw [check_data_shapes, if_neg (by simp [hpd]), he]
  · rw [check_data_shapes, if_neg (by simp [hpd]), hr, hw]
  · rw [check_data_shapes, if_neg (by simp [hpd]), hr, hw]

/-- Witness for C8: reader unavailable, in-tolerance reference shapes, an
out-of-band red file, and a read error, each on its own concrete root. -/
def envPdBad : Env :=
  { pathExists := fun _ => true, utf8 := fun _ => none, latin1 := fun _ => none
    nbformatAvailable := false, readNb := fun _ => .error "unused"
    pandasAvailable := false, readCsv := fun _ => .error "unused" }

def envPdOk : Env :=
  { envPdBad with
    pandasAvailable := true
    readCsv := fun p => if p == "data/winequality-red.csv" then .ok (1599, 12) else .ok (4898, 12) }

def envPdSmall : Env :=
  { envPdOk with
    readCsv := fun p => if p == "data/winequality-red.csv" then .ok (3, 12) else .ok (4898, 12) }

def envPdErr : Env :=
  { envPdOk with
    readCsv := fun p =>
      if p == "data/winequality-red.csv" then .ok (1599, 12)
      else .error "No such file or directory" }

theorem claim_C8_witness :
    check_data_shapes envPdBad
      = [⟨"Data shapes (red/white)", WARN, "pandas not available; cannot verify shapes"⟩]
    ∧ check_data_shapes envPdOk
      = [⟨"Data shapes (approx UCI)", PASS, "red=(1599, 12), white=(4898, 12)"⟩]
    ∧ check_data_shapes envPdSmall
      = [⟨"Data shapes (approx UCI)", WARN, "red=(3, 12), white=(4898, 12)"⟩]
    ∧ check_data_shapes envPdErr
      = [⟨"Data shapes (approx UCI)", FAIL, "Error reading CSVs: No such file or directory"⟩] := by
  refine ⟨(claim_C8_data_shapes envPdBad).1 rfl, ?_, ?_,
    ((claim_C8_data_shapes envPdErr).2 rfl).2.1 (1599, 12) "No such file or directory" rfl rfl⟩
  · have h := ((claim_C8_data_shapes envPdOk).2 rfl).2.2 (1599, 12) (4898, 12) rfl rfl
    rw [h, if_pos (by decide)]
    rfl
  · have h := ((claim_C8_data_shapes envPdSmall).2 rfl).2.2 (3, 12) (4898, 12) rfl rfl
    rw [h, if_neg (by decide)]
    rfl

/-! ### Notebook 02: reduction to the loaded form -/

/-- The seven findings `check_nb02` produces once the notebook has loaded. -/
def nb02Results (nb : Notebook) : List Finding :=
  let missing := missingInNb nb NB02_MUST_CODE ["code"]
  let r2 : Finding :=
    if missing.isEmpty then ⟨"NB02: Data load + label (0/1) + concat", PASS, ""⟩
    else ⟨"NB02: Data load + label (0/1) + concat", WARN,
          "Missing patterns: " ++ pyReprStrList missing⟩
  let foundVis := NB02_VIS_HINTS.any (fun pat => foundInNb nb ["code"] pat.2)
  let imgCount := count_image_outputs nb
  let r3 : Finding :=
    if !foundVis || imgCount < 1 then
      ⟨"NB02: Class balance figure + output", WARN,
       "Add a bar/plot of class counts and ensure outputs are saved."⟩
    else
      ⟨"NB02: Class balance figure + output", PASS,
       "Detected " ++ toString imgCount ++ " image outputs."⟩
  let r4 : Finding :=
    if 2 ≤ imgCount then
      ⟨"NB02: >=2 feature visuals present", PASS,
       "Detected " ++ toString imgCount ++ " image outputs."⟩
    else
      ⟨"NB02: >=2 feature visuals present", WARN,
       "Add at least two feature plots (e.g., boxplots/hist by class)."⟩
  let r5 : Finding :=
    if 2 ≤ interp_count nb then
      ⟨"NB02: Figure interpretations present", PASS,
       toString (interp_count nb) ++ " interpretation notes found."⟩
    else
      ⟨"NB02: Figure interpretations present", WARN,
       "Add 2–3 line interpretations under figures (use the word 'Interpretation' to pass this check)."⟩
  let r6 : Finding :=
    if nb02_trained nb then
      ⟨"NB02: No model training appears", FAIL,
       "Detected model training patterns ('.fit(' or classifier names). Move training to Notebook 03."⟩
    else ⟨"NB02: No model training appears", PASS, ""⟩
  let r7 : Finding :=
    if has_outputs nb then ⟨"NB02: Saved with outputs", PASS, ""⟩
    else ⟨"NB02: Saved with outputs", FAIL,
          "Run all cells and save notebook with outputs so GitHub renders figures."⟩
  [⟨"Notebook 02 loads", PASS, ""⟩, r2, r3, r4, r5, r6, r7]

theorem check_nb02_eq (env : Env) (nb : Notebook)
    (h : load_notebook env "notebooks/02_data_understanding.ipynb" = (some nb, "")) :
    check_nb02 env = nb02Results nb := by
  unfold check_nb02 nb02Results
  rw [h]

/-! ### Counting lemmas for the notebook checks -/

def IMAGE_KEYS : List String := ["image/png", "image/jpeg", "image/svg+xml"]

/-- Does the output record carry an image media type?  (The disjunction of
the three membership tests of the source.) -/
def isImageOutput (out : CellOutput) : Bool :=
  out.data.contains "image/png" || out.data.contains "image/jpeg"
    || out.data.contains "image/svg+xml"

theorem image_fold_eq (outs : List CellOutput) (n : Nat) :
    outs.foldl (fun cnt out =>
        if out.data.contains "image/png" || out.data.contains "image/jpeg"
            || out.data.contains "image/svg+xml" then cnt + 1 else cnt) n
      = n + (outs.filter isImageOutput).length := by
  induction outs generalizing n with
  | nil => simp
  | cons o os ih =>
    rw [List.foldl_cons, List.filter_cons]
    rcases h : isImageOutput o with _ | _
    · rw [show (o.data.contains "image/png" || o.data.contains "image/jpeg"
          || o.data.contains "image/svg+xml") = false from h,
        if_neg (by simp), if_neg (by simp [h]), ih]
    · rw [show (o.data.contains "image/png" || o.data.contains "image/jpeg"
          || o.data.contains "image/svg+xml") = true from h,
        if_pos rfl, if_pos (by simp [h]), ih, List.length_cons]
      omega

/-- `count_image_outputs` counts, across all code cells, exactly the output
records whose media-type key set meets `IMAGE_KEYS`. -/
theorem count_image_outputs_eq (nb : Notebook) :
    count_image_outputs nb
      = ((nb_code_cells nb).map (fun c => (c.outputs.filter isImageOutput).length)).sum
    ∧ ∀ out : CellOutput, isImageOutput out = IMAGE_KEYS.any (fun k => out.data.contains k) := by
  constructor
  · unfold count_image_outputs
    suffices h : ∀ (cells : List Cell) (n : Nat),
        cells.foldl (fun cnt c => c.outputs.foldl (fun cnt out =>
            if out.data.contains "image/png" || out.data.contains "image/jpeg"
                || out.data.contains "image/svg+xml" then cnt + 1 else cnt) cnt) n
          = n + (cells.map (fun c => (c.outputs.filter isImageOutput).length)).sum by
      simpa using h (nb_code_cells nb) 0
    intro cells
    induction cells with
    | nil => simp
    | cons c cs ih =>
      intro n
      rw [List.foldl_cons, image_fold_eq, ih, List.map_cons, List.sum_cons]
      omega
  · intro out
    simp [IMAGE_KEYS, isImageOutput, Bool.or_assoc]

theorem interp_code_fold (cells : List Cell) (n : Nat) :
    cells.foldl (fun n c =>
        if INTERP_KEYWORDS.any (fun w => occursIn w (pyLower c.source)) then n + 1 else n) n
      = n + (cells.filter (fun c =>
          INTERP_KEYWORDS.any (fun w => occursIn w (pyLower c.source)))).length := by
  induction cells generalizing n with
  | nil => simp
  | cons c cs ih =>
    simp only [List.foldl_cons, List.filter_cons]
    rcases h : INTERP_KEYWORDS.any (fun w => occursIn w (pyLower c.source)) with _ | _
    · rw [if_neg (by simp), if_neg (by simp), ih]
    · rw [if_pos rfl, if_pos rfl, ih, List.length_cons]
      omega

theorem interp_md_fold (cells : List Cell) (n : Nat) :
    cells.foldl (fun n c =>
        if INTERP_KEYWORDS.any (fun w => occursIn w (pyLower c.source)) then
          if 20 ≤ (pySplitWs (pyLower c.source)).length then n + 1 else n
        else n) n
      = n + (cells.filter (fun c =>
          INTERP_KEYWORDS.any (fun w => occursIn w (pyLower c.source))
            && decide (20 ≤ (pySplitWs (pyLower c.source)).length))).length := by
  induction cells generalizing n with
  | nil => simp
  | cons c cs ih =>
    simp only [List.foldl_cons, List.filter_cons]
    rcases h : INTERP_KEYWORDS.any (fun w => occursIn w (pyLower c.source)) with _ | _
    · rw [if_neg (by simp), if_neg (by simp), ih]
    · rw [if_pos rfl]
      by_cases h2 : 20 ≤ (pySplitWs (pyLower c.source)).length
      · rw [if_pos h2, if_pos (by simp [h2]), ih, List.length_cons]
        omega
      · rw [if_neg h2, if_neg (by simp [h2]), ih]

/-- The interpretation-note counter equals the number of keyword-bearing
markdown cells of at least 20 words plus the number of keyword-bearing code
cells. -/
theorem interp_count_eq (nb : Notebook) :
    interp_count nb
      = ((nb_markdown_cells nb).filter (fun c =>
            INTERP_KEYWORDS.any (fun w => occursIn w (pyLower c.source))
              && decide (20 ≤ (pySplitWs (pyLower c.source)).length))).length
        + ((nb_code_cells nb).filter (fun c =>
            INTERP_KEYWORDS.any (fun w => occursIn w (pyLower c.source)))).length := by
  unfold interp_count
  rw [interp_code_fold, interp_md_fold]
  omega

/-! ### Claim C6 -/

/-- Claim C6: for a loadable Document-2 notebook, the richness check (the
fourth finding) is PASS when the image-output count is at least 2 and WARN
when it is 0 or 1, and that count is the number of Output records across all
code cells whose media-type key set meets
`{image/png, image/jpeg, image/svg+xml}`. -/
theorem claim_C6_richness (env : Env) (nb : Notebook)
    (h : load_notebook env "notebooks/02_data_understanding.ipynb" = (some nb, "")) :
    (check_nb02 env)[3]? = some (
      if 2 ≤ count_image_outputs nb then
        ⟨"NB02: >=2 feature visuals present", PASS,
         "Detected " ++ toString (count_image_outputs nb) ++ " image outputs."⟩
      else
        ⟨"NB02: >=2 feature visuals present", WARN,
         "Add at least two feature plots (e.g., boxplots/hist by class)."⟩)
    ∧ count_image_outputs nb
        = ((nb_code_cells nb).map (fun c =>
            (c.outputs.filter (fun out =>
              IMAGE_KEYS.any (fun k => out.data.contains k))).length)).sum := by
  constructor
  · rw [check_nb02_eq env nb h]
    rfl
  · have hfun : isImageOutput
        = (fun out : CellOutput => IMAGE_KEYS.any (fun k => out.data.contains k)) :=
      funext (count_image_outputs_eq nb).2
    rw [(count_image_outputs_eq nb).1, hfun]

/-- A notebook holding one code cell with `k` PNG outputs. -/
def nbImg (k : Nat) : Notebook :=
  ⟨[⟨"code", "", List.replicate k ⟨["image/png"]⟩⟩]⟩

/-- A root on which the Document-2 notebook loads as the given notebook. -/
def envNb (nb : Notebook) : Env :=
  { pathExists := fun _ => true
    utf8 := fun _ => none
    latin1 := fun _ => none
    nbformatAvailable := true
    readNb := fun _ => .ok nb
    pandasAvailable := false
    readCsv := fun _ => .error "unused" }

theorem claim_C6_witness :
    (check_nb02 (envNb (nbImg 0)))[3]?
      = some ⟨"NB02: >=2 feature visuals present", WARN,
              "Add at least two feature plots (e.g., boxplots/hist by class)."⟩
    ∧ (check_nb02 (envNb (nbImg 1)))[3]?
      = some ⟨"NB02: >=2 feature visuals present", WARN,
              "Add at least two feature plots (e.g., boxplots/hist by class)."⟩
    ∧ (check_nb02 (envNb (nbImg 2)))[3]?
      = some ⟨"NB02: >=2 feature visuals present", PASS, "Detected 2 image outputs."⟩ := by
  refine ⟨?_, ?_, ?_⟩
  · rw [(claim_C6_richness (envNb (nbImg 0)) (nbImg 0) rfl).1]
    rfl
  · rw [(claim_C6_richness (envNb (nbImg 1)) (nbImg 1) rfl).1]
    rfl
  · rw [(claim_C6_richness (envNb (nbImg 2)) (nbImg 2) rfl).1]
    rfl

/-! ### Claim C9 -/

/-- Claim C9: for a loadable Document-2 notebook the interpretation-note
check (the fifth finding) is PASS exactly when the number of markdown cells
holding an interpretation/insight keyword with at least 20 words, plus the
number of code cells holding such a keyword at any length, reaches 2, and
WARN otherwise. -/
theorem claim_C9_interp_notes (env : Env) (nb : Notebook)
    (h : load_notebook env "notebooks/02_data_understanding.ipynb" = (some nb, "")) :
    (check_nb02 env)[4]? = some (
      if 2 ≤ interp_count nb then
        ⟨"NB02: Figure interpretations present", PASS,
         toString (interp_count nb) ++ " interpretation notes found."⟩
      else
        ⟨"NB02: Figure interpretations present", WARN,
         "Add 2–3 line interpretations under figures (use the word 'Interpretation' to pass this check)."⟩)
    ∧ interp_count nb
        = ((nb_markdown_cells nb).filter (fun c =>
              INTERP_KEYWORDS.any (fun w => occursIn w (pyLower c.source))
                && decide (20 ≤ (pySplitWs (pyLower c.source)).length))).length
          + ((nb_code_cells nb).filter (fun c =>
              INTERP_KEYWORDS.any (fun w => occursIn w (pyLower c.source)))).length := by
  constructor
  · rw [check_nb02_eq env nb h]
    rfl
  · exact interp_count_eq nb

/-- A markdown interpretation note of more than 20 words, a short keyword-free
markdown cell, and a code cell printing an insight. -/
def nbInterp : Notebook :=
  ⟨[⟨"markdown",
     "Interpretation: the red and white classes differ most in volatile acidity; the red wines sit clearly higher, which already suggests that a simple threshold separates a large part of the two groups.",
     []⟩,
    ⟨"markdown", "A short note.", []⟩,
    ⟨"code", "print('Insight: classes are imbalanced 3:1')", []⟩]⟩

theorem claim_C9_witness :
    (check_nb02 (envNb nbInterp))[4]?
      = some ⟨"NB02: Figure interpretations present", PASS, "2 interpretation notes found."⟩
    ∧ (check_nb02 (envNb (nbImg 0)))[4]?
      = some ⟨"NB02: Figure interpretations present", WARN,
              "Add 2–3 line interpretations under figures (use the word 'Interpretation' to pass this check)."⟩ := by
  constructor
  · rw [(claim_C9_interp_notes (envNb nbInterp) nbInterp rfl).1]
    rfl
  · rw [(claim_C9_interp_notes (envNb (nbImg 0)) (nbImg 0) rfl).1]
    rfl

/-! ### Claim C1 -/

/-- Claim C1: for every root on which the Document-2 notebook loads, the
anti-scope-creep check (the sixth finding) is FAIL — with the training
detail — exactly when the concatenated code-cell text matches the model-fit
call marker `\.fit\s*\(` or holds one of the cataloged classifier-name
tokens, and PASS otherwise; the verdict is a function of that concatenated
text alone, hence independent of the outcome of every other check. -/
theorem claim_C1_anti_scope_creep (env env' : Env) (nb nb' : Notebook)
    (h : load_notebook env "notebooks/02_data_understanding.ipynb" = (some nb, ""))
    (h' : load_notebook env' "notebooks/02_data_understanding.ipynb" = (some nb', "")) :
    (check_nb02 env)[5]? = some (
      if nb02_trained nb then
        ⟨"NB02: No model training appears", FAIL,
         "Detected model training patterns ('.fit(' or classifier names). Move training to Notebook 03."⟩
      else ⟨"NB02: No model training appears", PASS, ""⟩)
    ∧ (nb02_trained nb = true ↔
        reSearch false FIT_CALL_RGX (nb_code_text nb) = true
          ∨ ∃ name ∈ SKLEARN_CLASS_NAMES, occursIn name (nb_code_text nb) = true)
    ∧ (nb_code_text nb = nb_code_text nb' →
        (check_nb02 env)[5]? = (check_nb02 env')[5]?) := by
  refine ⟨?_, ?_, fun hcode => ?_⟩
  · rw [check_nb02_eq env nb h]
    rfl
  · unfold nb02_trained
    rw [Bool.or_eq_true, List.any_eq_true]
  · rw [check_nb02_eq env nb h, check_nb02_eq env' nb' h']
    show some (if nb02_trained nb then _ else _) = some (if nb02_trained nb' then _ else _)
    unfold nb02_trained
    rw [hcode]

/-- A Document-2 notebook whose code trains a classifier. -/
def nbTrained : Notebook :=
  ⟨[⟨"code", "from sklearn.linear_model import LogisticRegression", []⟩,
    ⟨"code", "model = LogisticRegression()\nmodel.fit(X, y)", []⟩]⟩

/-- A Document-2 notebook with exploration code only. -/
def nbExplore : Notebook :=
  ⟨[⟨"code", "df = pd.read_csv('data/winequality-red.csv', sep=';')\ndf.describe()", []⟩]⟩

theorem claim_C1_witness :
    (check_nb02 (envNb nbTrained))[5]?
      = some ⟨"NB02: No model training appears", FAIL,
              "Detected model training patterns ('.fit(' or classifier names). Move training to Notebook 03."⟩
    ∧ (check_nb02 (envNb nbExplore))[5]?
      = some ⟨"NB02: No model training appears", PASS, ""⟩ := by
  constructor
  · rw [(claim_C1_anti_scope_creep (envNb nbTrained) (envNb nbTrained)
      nbTrained nbTrained rfl rfl).1]
    rfl
  · rw [(claim_C1_anti_scope_creep (envNb nbExplore) (envNb nbExplore)
      nbExplore nbExplore rfl rfl).1]
    rfl

/-! ### Aggregator: specification form -/

/-- The report as the specification describes it: a timestamped header, a
dash rule, one body line per finding in input order (label and severity
columns padded to the longest label and the longest severity token), and a
summary line counting the FAIL and WARN findings. -/
def reportSpec (now : String) (results : List Finding) : String :=
  let header := "QA Report — " ++ now
  let sepRule := String.mk (List.replicate header.length '-')
  let body := String.intercalate "\n" (results.map (reportLine
    (listMax (results.map (fun r => r.label.length)))
    (listMax (results.map (fun r => r.status.length)))))
  let footer := "\nSummary: " ++ toString (results.countP (fun r => r.status == FAIL))
    ++ " FAIL, " ++ toString (results.countP (fun r => r.status == WARN)) ++ " WARN\n"
  header ++ "\n" ++ sepRule ++ "\n" ++ body ++ footer

theorem summarize_foldl (maxL maxS : Nat) (results : List Finding)
    (lines : List String) (f w : Nat) :
    results.foldl (fun (st : List String × Nat × Nat) r =>
        (st.1 ++ [reportLine maxL maxS r],
         if r.status == FAIL then (st.2.1 + 1, st.2.2)
         else if r.status == WARN then (st.2.1, st.2.2 + 1)
         else st.2))
      (lines, f, w)
      = (lines ++ results.map (reportLine maxL maxS),
         f + results.countP (fun r => r.status == FAIL),
         w + results.countP (fun r => r.status == WARN)) := by
  induction results generalizing lines f w with
  | nil => simp
  | cons r rs ih =>
    simp only [List.foldl_cons]
    rcases hF : r.status == FAIL with _ | _
    · rcases hW : r.status == WARN with _ | _
      · rw [if_neg (by simp), if_neg (by simp), ih]
        simp [List.countP_cons, hF, hW]
      · rw [if_neg (by simp), if_pos rfl, ih]
        simp [List.countP_cons, hF, hW]
        omega
    · have hsF : r.status = FAIL := by simpa using hF
      have hW : (r.status == WARN) = false := by rw [hsF]; decide
      rw [if_pos rfl, ih]
      simp [List.countP_cons, hF, hW]
      omega

/-- On a non-empty finding list `summarize` returns the specification report
and the FAIL count. -/
theorem summarize_eq (now : String) (results : List Finding) (h : results ≠ []) :
    summarize now results
      = some (reportSpec now results, results.countP (fun r => r.status == FAIL)) := by
  rcases results with _ | ⟨a, rest⟩
  · exact absurd rfl h
  · show (match (a :: rest : List Finding) with
      | [] => none
      | _ :: _ => some _) = _
    simp only [summarize, reportSpec]
    rw [summarize_foldl]
    simp only [List.nil_append, Nat.zero_add]

/-! ### Claim C5 -/

/-- Counterexample to C5 as stated: on the empty finding sequence the
aggregator produces no report at all — Python's `max` over the empty label
sequence raises, modelled by `none` — rather than a report with zero body
lines and a zero-count summary line. -/
theorem claim_C5_counterexample : summarize "2025-10-12 00:00:00" [] = none := rfl

/-- Claim C5 (amended to non-empty finding sequences, which is what the
entry point always passes): the report contains exactly one body line per
input finding in input order, each padded to the longest label and the
longest severity token, and ends with a summary line counting the FAIL and
WARN findings; the returned failure count is the FAIL count. -/
theorem claim_C5_aggregator (now : String) (results : List Finding)
    (h : results ≠ []) :
    summarize now results
      = some (reportSpec now results,
              results.countP (fun r => r.status == FAIL)) :=
  summarize_eq now results h

theorem claim_C5_witness :
    summarize "2025-10-12 00:00:00"
        [⟨"Exists: README.md", PASS, ""⟩,
         ⟨"Data shapes (approx UCI)", FAIL, "Error reading CSVs: x"⟩]
      = some (reportSpec "2025-10-12 00:00:00"
          [⟨"Exists: README.md", PASS, ""⟩,
           ⟨"Data shapes (approx UCI)", FAIL, "Error reading CSVs: x"⟩], 1) := by
  rw [claim_C5_aggregator "2025-10-12 00:00:00" _ (by simp)]
  rfl

/-! ### Claim C4 -/

theorem runChecks_ne_nil (env : Env) : runChecks env ≠ [] := by
  have hmap : check_files_exist env = REQUIRED_FILES.map (existFinding env) :=
    foldl_append_eq_map (existFinding env) REQUIRED_FILES []
  unfold runChecks
  rw [hmap]
  simp [REQUIRED_FILES]

/-- A finding with WARN weakened to PASS; all other findings unchanged. -/
def warnToPass (r : Finding) : Finding :=
  if r.status == WARN then ⟨r.label, PASS, r.detail⟩ else r

theorem countP_fail_warnToPass (l : List Finding) :
    (l.map warnToPass).countP (fun r => r.status == FAIL)
      = l.countP (fun r => r.status == FAIL) := by
  induction l with
  | nil => rfl
  | cons r rs ih =>
    rw [List.map_cons, List.countP_cons, List.countP_cons, ih]
    have hstat : ((warnToPass r).status == FAIL) = (r.status == FAIL) := by
      unfold warnToPass
      rcases hW : r.status == WARN with _ | _
      · rw [if_neg (by simp [hW])]
      · have hs : r.status = WARN := by simpa using hW
        rw [if_pos (by simp [hW]), hs]
        rfl
    rw [hstat]

/-- Claim C4: the process exit status is 0 exactly when the FAIL count over
all findings is 0 and 1 exactly when it is not; weakening every WARN finding
to PASS never changes the exit status, so WARN findings never affect it. -/
theorem claim_C4_exit_codes (now : String) (env : Env) :
    mainExit now env
      = some (exitFor ((runChecks env).countP (fun r => r.status == FAIL)))
    ∧ (mainExit now env = some 0
        ↔ (runChecks env).countP (fun r => r.status == FAIL) = 0)
    ∧ (mainExit now env = some 1
        ↔ (runChecks env).countP (fun r => r.status == FAIL) ≠ 0)
    ∧ (∀ (t : String) (l : List Finding),
        (summarize t (l.map warnToPass)).map (fun p => exitFor p.2)
          = (summarize t l).map (fun p => exitFor p.2)) := by
  have hmain : mainExit now env
      = some (exitFor ((runChecks env).countP (fun r => r.status == FAIL))) := by
    unfold mainExit
    rw [summarize_eq now _ (runChecks_ne_nil env)]
    rfl
  refine ⟨hmain, ?_, ?_, fun t l => ?_⟩
  · rw [hmain]
    simp only [Option.some.injEq, exitFor]
    split <;> omega
  · rw [hmain]
    simp only [Option.some.injEq, exitFor]
    split <;> omega
  · rcases l with _ | ⟨a, rest⟩
    · rfl
    · rw [summarize_eq t _ (by simp), summarize_eq t _ (by simp),
        countP_fail_warnToPass]
      rfl

/-! ### Remaining witnesses -/

/-- A root where only the white-wine tabular file is missing. -/
def envOneMissing : Env :=
  { pathExists := fun p => !(p == "data/winequality-white.csv")
    utf8 := fun _ => none
    latin1 := fun _ => none
    nbformatAvailable := false
    readNb := fun _ => .error "unused"
    pandasAvailable := false
    readCsv := fun _ => .error "unused" }

theorem claim_C3_witness :
    (check_files_exist envOneMissing).filter (fun r => r.status == FAIL)
      = [⟨"Exists: data/winequality-white.csv", FAIL, "Missing data/winequality-white.csv"⟩]
    ∧ (check_files_exist envOneMissing).filter (fun r => r.status == PASS)
      = (REQUIRED_FILES.filter (fun g => g ≠ "data/winequality-white.csv")).map
          (fun g => ⟨"Exists: " ++ g, PASS, ""⟩) :=
  (claim_C3_artifact_existence envOneMissing).2 "data/winequality-white.csv"
    (by decide) (by decide)

/-- A root with no files at all. -/
def envEmptyRoot : Env :=
  { pathExists := fun _ => false
    utf8 := fun _ => none
    latin1 := fun _ => none
    nbformatAvailable := false
    readNb := fun _ => .error "unused"
    pandasAvailable := false
    readCsv := fun _ => .error "unused" }

theorem claim_C7_witness :
    check_gitignore envEmptyRoot
      = [⟨"gitignore present & includes rules", FAIL, ".gitignore not found"⟩]
    ∧ check_gitignore (envWithGitignore (gitignoreDropLine 0))
      = [⟨"gitignore includes today-only rules", WARN,
          "Add patterns: \\.ipynb_checkpoints/"⟩] := by
  refine ⟨(claim_C7_gitignore_coverage envEmptyRoot).1 rfl, ?_⟩
  rw [(claim_C7_gitignore_coverage envEmptyRoot).2.2.2 0 (by decide)]
  rfl

theorem claim_C2_witness :
    check_requirements envEmptyRoot
      = [⟨"requirements.txt present", FAIL, "requirements.txt not found"⟩]
    ∧ check_requirements (envWithReq reqManifestMixed)
      = [⟨"requirements includes minimal deps", PASS, ""⟩]
    ∧ check_requirements (envWithReq (reqManifestFor 21))
      = [⟨"requirements includes minimal deps", WARN, "Missing: matplotlib, numpy"⟩] := by
  refine ⟨(claim_C2_requirements_coverage envEmptyRoot).1 rfl,
    (claim_C2_requirements_coverage (envWithReq reqManifestMixed)).2.2.2.1, ?_⟩
  rw [(claim_C2_requirements_coverage envEmptyRoot).2.2.2.2 21 (by decide)]
  rfl
